import Mathlib

set_option maxRecDepth 20000

set_option autoImplicit false

/-- Brace characters, named so that models of regular expressions and JSON text
can refer to them. -/
def lbraceC : Char := Char.ofNat 123

/-- Closing brace character. -/
def rbraceC : Char := Char.ofNat 125

/-- Whitespace predicate used by the Python str.strip method (ASCII subset). -/
def pyIsSpace (c : Char) : Bool :=
  c == ' ' || c == '\t' || c == '\n' || c == '\r' || c == Char.ofNat 11 || c == Char.ofNat 12

/-- Model of the Python str.strip method with no arguments. -/
def pyStrip (s : String) : String :=
  String.mk (((s.data.dropWhile pyIsSpace).reverse.dropWhile pyIsSpace).reverse)

/-- Whether the first list is a prefix of the second. -/
def listStartsWith : List Char → List Char → Bool
  | [], _ => true
  | _ :: _, [] => false
  | p :: ps, c :: cs => p == c && listStartsWith ps cs

/-- Fuel-driven worker for pyReplace: scans left to right, replacing each
non-overlapping occurrence of pat, exactly as the Python str.replace method. -/
def replaceFuel (pat repl : List Char) : Nat → List Char → List Char
  | _, [] => []
  | 0, cs => cs
  | fuel + 1, c :: cs =>
    if listStartsWith pat (c :: cs) then
      repl ++ replaceFuel pat repl fuel (List.drop pat.length (c :: cs))
    else
      c :: replaceFuel pat repl fuel cs

/-- Model of the Python str.replace method (all occurrences, left to right). -/
def pyReplace (s pat repl : String) : String :=
  String.mk (replaceFuel pat.data repl.data (s.length + 1) s.data)

/-- Model of the Python str.startswith method. -/
def pyStartsWith (s pre : String) : Bool :=
  listStartsWith pre.data s.data

/-- Model of re.search with the pattern of a brace, any characters, a brace
(greedy star), as used at app.py line 235: the match, when it exists, runs from
the first opening brace to the last closing brace after it. -/
def jsonSearch (s : String) : Option String :=
  let cs := s.data
  match cs.findIdx? (fun c => c == lbraceC), cs.reverse.findIdx? (fun c => c == rbraceC) with
  | some i, some jr =>
    let j := cs.length - 1 - jr
    if i < j then some (String.mk ((cs.drop i).take (j - i + 1))) else none
  | _, _ => none

/-- Model of app.py line 230: strip markdown fences and surrounding whitespace
from the raw model reply. -/
def cleanResponse (response : String) : String :=
  pyStrip (pyReplace (pyReplace response "```json" "") "```" "")

/-- Python exceptions that the transcribe handler of app.py can raise or catch. -/
inductive PyErr where
  | nameError (name : String)
  | keyError (key : String)
  | jsonDecodeError
  | valueError (msg : String)
  | unknownTimeZoneError (zone : String)
  | typeError (msg : String)

/-- Rendering of str(e) for the exceptions above, as CPython prints them.
KeyError and pytz.exceptions.UnknownTimeZoneError print the repr of their
argument, which for a string is the string in single quotes. -/
def pyErrStr : PyErr → String
  | .nameError n => "name \x27" ++ n ++ "\x27 is not defined"
  | .keyError k => "\x27" ++ k ++ "\x27"
  | .jsonDecodeError => "Expecting value: line 1 column 1 (char 0)"
  | .valueError m => m
  | .unknownTimeZoneError z => "\x27" ++ z ++ "\x27"
  | .typeError m => m

/-- JSON values as produced by the Python json.loads function. -/
inductive JValue where
  | jnull
  | jbool (b : Bool)
  | jnum (n : Int)
  | jstr (s : String)
  | jarr (items : List JValue)
  | jobj (fields : List (String × JValue))

/-- Python truthiness of a JSON-derived value: empty string, empty list, empty
dict, zero and None are falsy. -/
def JValue.truthy : JValue → Bool
  | .jnull => false
  | .jbool b => b
  | .jnum n => n != 0
  | .jstr s => s != ""
  | .jarr items => !items.isEmpty
  | .jobj fields => !fields.isEmpty

mutual

/-- Python repr of a JSON-derived value (the dict case is abbreviated; no code
path of the claims renders a dict). -/
def pyRepr : JValue → String
  | .jnull => "None"
  | .jbool b => if b then "True" else "False"
  | .jnum n => toString n
  | .jstr s => "\x27" ++ s ++ "\x27"
  | .jarr items => "[" ++ String.intercalate ", " (pyReprList items) ++ "]"
  | .jobj _ => "\x7b...\x7d"

/-- Reprs of a list of values, elementwise. -/
def pyReprList : List JValue → List String
  | [] => []
  | v :: vs => pyRepr v :: pyReprList vs

end

/-- Python str() of a JSON-derived value, as an f-string renders it. -/
def pyStr : JValue → String
  | .jstr s => s
  | v => pyRepr v

/-- Lookup in a parsed JSON object; with duplicate keys the Python dict keeps
the last binding. -/
def jobjGet (fields : List (String × JValue)) (k : String) : Option JValue :=
  (fields.reverse.find? (fun p => p.1 == k)).map (fun p => p.2)

/-- Model of the Python subscript v[k] with a string key: dict lookup raising
KeyError on a missing key, TypeError on a non-dict value. -/
def pyGetItem (v : JValue) (k : String) : Except PyErr JValue :=
  match v with
  | .jobj fields =>
    match jobjGet fields k with
    | some x => .ok x
    | none => .error (.keyError k)
  | _ => .error (.typeError "string indices must be integers")

/-- JSON whitespace characters skipped by the Python json parser. -/
def jsonWsChar (c : Char) : Bool :=
  c == ' ' || c == '\t' || c == '\n' || c == '\r'

/-- Skip leading JSON whitespace. -/
def skipWs : List Char → List Char
  | [] => []
  | c :: cs => if jsonWsChar c then skipWs cs else c :: cs

/-- Parse the body of a JSON string literal after its opening quote, handling
the single-character escapes. -/
def parseJString : List Char → Option (String × List Char)
  | [] => none
  | c :: rest =>
    if c == '"' then some ("", rest)
    else if c == '\\' then
      match rest with
      | [] => none
      | e :: rest2 =>
        let esc : Option Char :=
          if e == 'n' then some '\n'
          else if e == 't' then some '\t'
          else if e == 'r' then some '\r'
          else if e == '"' then some '"'
          else if e == '\\' then some '\\'
          else if e == '/' then some '/'
          else if e == 'b' then some (Char.ofNat 8)
          else if e == 'f' then some (Char.ofNat 12)
          else none
        match esc with
        | none => none
        | some ch =>
          match parseJString rest2 with
          | none => none
          | some (s, r) => some (String.singleton ch ++ s, r)
    else
      match parseJString rest with
      | none => none
      | some (s, r) => some (String.singleton c ++ s, r)

/-- Longest digit prefix of a character list. -/
def takeDigits : List Char → (List Char × List Char)
  | [] => ([], [])
  | c :: cs =>
    if c.isDigit then
      let r := takeDigits cs
      (c :: r.1, r.2)
    else ([], c :: cs)

/-- Value of a digit string. -/
def digitsToNat (ds : List Char) : Nat :=
  ds.foldl (fun a c => a * 10 + (c.toNat - 48)) 0

/-- Parse a JSON integer numeral. Fractional and exponent forms are not
modelled (no claim involves them); they yield a parse failure. -/
def parseJNumber (cs : List Char) : Option (Int × List Char) :=
  let p : Bool × List Char :=
    match cs with
    | c :: rest => if c == '-' then (true, rest) else (false, cs)
    | [] => (false, cs)
  match takeDigits p.2 with
  | ([], _) => none
  | (ds, rest) =>
    let bad : Bool :=
      match rest with
      | c :: _ => c == '.' || c == 'e' || c == 'E'
      | [] => false
    if bad then none
    else some (if p.1 then -(digitsToNat ds : Int) else (digitsToNat ds : Int), rest)

mutual

/-- Fuel-driven recursive-descent parser for a JSON value, modelling the
Python json.loads grammar on the shapes the application exchanges. -/
def parseJ : Nat → List Char → Option (JValue × List Char)
  | 0, _ => none
  | fuel + 1, cs =>
    match skipWs cs with
    | [] => none
    | c :: rest =>
      if c == '"' then
        match parseJString rest with
        | none => none
        | some (s, r) => some (.jstr s, r)
      else if c == lbraceC then parseJObj fuel rest
      else if c == '[' then parseJArr fuel rest
      else if listStartsWith "true".data (c :: rest) then some (.jbool true, List.drop 4 (c :: rest))
      else if listStartsWith "false".data (c :: rest) then some (.jbool false, List.drop 5 (c :: rest))
      else if listStartsWith "null".data (c :: rest) then some (.jnull, List.drop 4 (c :: rest))
      else
        match parseJNumber (c :: rest) with
        | none => none
        | some (n, r) => some (.jnum n, r)

/-- Parse an object body after its opening brace. -/
def parseJObj : Nat → List Char → Option (JValue × List Char)
  | 0, _ => none
  | fuel + 1, cs =>
    match skipWs cs with
    | [] => none
    | c :: rest =>
      if c == rbraceC then some (.jobj [], rest)
      else parseJObjItems fuel (c :: rest) []

/-- Parse the members of a non-empty object. -/
def parseJObjItems : Nat → List Char → List (String × JValue) → Option (JValue × List Char)
  | 0, _, _ => none
  | fuel + 1, cs, acc =>
    match skipWs cs with
    | [] => none
    | c :: rest =>
      if c == '"' then
        match parseJString rest with
        | none => none
        | some (k, r1) =>
          match skipWs r1 with
          | [] => none
          | c2 :: r2 =>
            if c2 == ':' then
              match parseJ fuel r2 with
              | none => none
              | some (v, r3) =>
                match skipWs r3 with
                | [] => none
                | c3 :: r4 =>
                  if c3 == ',' then parseJObjItems fuel r4 (acc ++ [(k, v)])
                  else if c3 == rbraceC then some (.jobj (acc ++ [(k, v)]), r4)
                  else none
            else none
      else none

/-- Parse an array body after its opening bracket. -/
def parseJArr : Nat → List Char → Option (JValue × List Char)
  | 0, _ => none
  | fuel + 1, cs =>
    match skipWs cs with
    | [] => none
    | c :: rest =>
      if c == ']' then some (.jarr [], rest)
      else parseJArrItems fuel (c :: rest) []

/-- Parse the elements of a non-empty array. -/
def parseJArrItems : Nat → List Char → List JValue → Option (JValue × List Char)
  | 0, _, _ => none
  | fuel + 1, cs, acc =>
    match parseJ fuel cs with
    | none => none
    | some (v, r1) =>
      match skipWs r1 with
      | [] => none
      | c :: r2 =>
        if c == ',' then parseJArrItems fuel r2 (acc ++ [v])
        else if c == ']' then some (.jarr (acc ++ [v]), r2)
        else none

end

/-- Model of the Python json.loads function: parse the whole string as one
JSON value, with json.JSONDecodeError on failure or trailing content. -/
def jsonLoads (s : String) : Except PyErr JValue :=
  match parseJ (s.length + 1) s.data with
  | some (v, rest) => if (skipWs rest).isEmpty then .ok v else .error .jsonDecodeError
  | none => .error .jsonDecodeError

/-- Naive datetime as built by datetime.strptime plus a zone name attached by
the replace call with a pytz tzinfo (tz is the empty string while naive). -/
structure PyDateTime where
  year : Nat
  month : Nat
  day : Nat
  hour : Nat
  minute : Nat
  tz : String

/-- Two-digit zero padded numeral. -/
def pad2 (n : Nat) : String := if n < 10 then "0" ++ toString n else toString n

/-- Four-digit zero padded numeral. -/
def pad4 (n : Nat) : String :=
  if n < 10 then "000" ++ toString n
  else if n < 100 then "00" ++ toString n
  else if n < 1000 then "0" ++ toString n
  else toString n

/-- Model of strftime with the format year-month-day hour:minute. -/
def pyStrftime (dt : PyDateTime) : String :=
  pad4 dt.year ++ "-" ++ pad2 dt.month ++ "-" ++ pad2 dt.day ++ " " ++ pad2 dt.hour ++ ":" ++ pad2 dt.minute

/-- Model of datetime.isoformat for a strptime-built value (seconds are zero).
The UTC-offset suffix a pytz tzinfo would add is not modelled; no claim
depends on it. -/
def pyIsoformat (dt : PyDateTime) : String :=
  pad4 dt.year ++ "-" ++ pad2 dt.month ++ "-" ++ pad2 dt.day ++ "T" ++ pad2 dt.hour ++ ":" ++ pad2 dt.minute ++ ":00"

/-- Gregorian leap year test. -/
def isLeap (y : Nat) : Bool := (y % 4 == 0 && y % 100 != 0) || y % 400 == 0

/-- Days in a month of the Gregorian calendar. -/
def daysInMonth (y m : Nat) : Nat :=
  if m == 2 then (if isLeap y then 29 else 28)
  else if m == 4 || m == 6 || m == 9 || m == 11 then 30
  else 31

/-- Model of adding a timedelta in minutes; carries at most one month, which
covers the fixed 60-minute meeting duration of the source. -/
def addMinutes (dt : PyDateTime) (mins : Nat) : PyDateTime :=
  let total := dt.minute + mins
  let minute := total % 60
  let hours := dt.hour + total / 60
  let hour := hours % 24
  let day := dt.day + hours / 24
  if day ≤ daysInMonth dt.year dt.month then
    { dt with minute := minute, hour := hour, day := day }
  else
    let day2 := day - daysInMonth dt.year dt.month
    if dt.month == 12 then
      { dt with minute := minute, hour := hour, day := day2, month := 1, year := dt.year + 1 }
    else
      { dt with minute := minute, hour := hour, day := day2, month := dt.month + 1 }

/-- Parse exactly four digits (the strptime %Y directive). -/
def parse4Y : List Char → Option (Nat × List Char)
  | a :: b :: c :: d :: rest =>
    if a.isDigit && b.isDigit && c.isDigit && d.isDigit then
      some (digitsToNat [a, b, c, d], rest)
    else none
  | _ => none

/-- Parse one or two digits, preferring two (the strptime numeric directives). -/
def parseUpTo2 : List Char → Option (Nat × List Char)
  | a :: b :: rest =>
    if a.isDigit && b.isDigit then some (digitsToNat [a, b], rest)
    else if a.isDigit then some (digitsToNat [a], b :: rest)
    else none
  | [a] => if a.isDigit then some (digitsToNat [a], []) else none
  | [] => none

/-- Consume one expected literal character. -/
def expectChar (c : Char) : List Char → Option (List Char)
  | x :: rest => if x == c then some rest else none
  | [] => none

/-- Parse a full year-month-day hour:minute string, validating ranges the way
datetime construction does. -/
def parseDateTimeChars (cs : List Char) : Option PyDateTime :=
  match parse4Y cs with
  | none => none
  | some (y, r1) =>
    match expectChar '-' r1 with
    | none => none
    | some r2 =>
      match parseUpTo2 r2 with
      | none => none
      | some (mo, r3) =>
        match expectChar '-' r3 with
        | none => none
        | some r4 =>
          match parseUpTo2 r4 with
          | none => none
          | some (d, r5) =>
            match expectChar ' ' r5 with
            | none => none
            | some r6 =>
              match parseUpTo2 r6 with
              | none => none
              | some (h, r7) =>
                match expectChar ':' r7 with
                | none => none
                | some r8 =>
                  match parseUpTo2 r8 with
                  | none => none
                  | some (mi, r9) =>
                    match r9 with
                    | [] =>
                      if 1 ≤ mo ∧ mo ≤ 12 ∧ 1 ≤ d ∧ d ≤ daysInMonth y mo ∧ h ≤ 23 ∧ mi ≤ 59 then
                        some ⟨y, mo, d, h, mi, ""⟩
                      else none
                    | _ => none

/-- Model of datetime.strptime with the format of app.py line 279, raising
ValueError on any mismatch. -/
def pyStrptime (s : String) : Except PyErr PyDateTime :=
  match parseDateTimeChars s.data with
  | some dt => .ok dt
  | none =>
    .error (.valueError ("time data \x27" ++ s ++ "\x27 does not match format \x27%Y-%m-%d %H:%M\x27"))

/-- Modelled subset of the pytz zone database: the claims only distinguish a
recognized zone name from an unrecognized one. -/
def pytz_all_timezones : List String :=
  ["Asia/Kolkata", "UTC", "Asia/Tokyo", "America/New_York", "Europe/London",
   "US/Eastern", "US/Pacific", "Australia/Sydney", "Europe/Paris", "Asia/Dubai"]

/-- Model of pytz.timezone: a recognized zone name is returned, any other
string raises UnknownTimeZoneError, a non-string raises a TypeError-like
failure. -/
def pytzTimezone : JValue → Except PyErr String
  | .jstr s =>
    if pytz_all_timezones.contains s then .ok s else .error (.unknownTimeZoneError s)
  | v => .error (.typeError ("str expected, not " ++ pyStr v))

/-- One entry of the chat transcript, as appended by app.py (the source uses
the role strings user and Assistant); the message can be the Python None. -/
structure ChatTurn where
  role : String
  message : Option String

/-- The meeting-details dict built at app.py lines 282 to 289: it is either
empty (modelled as the none of an Option) or carries all six keys. -/
structure MeetingDetails where
  title : JValue
  description : JValue
  agenda : JValue
  start_time : PyDateTime
  attendees : JValue
  timezone : JValue

/-- The global in-memory state of app.py lines 70 to 74 (the calendar-service
cache is part of the external environment model instead). -/
structure SessionState where
  chat_history : List ChatTurn
  meeting_details : Option MeetingDetails

/-- Start or end block of the calendar event body. -/
structure EventTime where
  dateTime : String
  timeZone : JValue

/-- One attendee entry of the calendar event body. -/
structure CalendarAttendee where
  email : JValue

/-- The calendar event body built at app.py lines 128 to 145 (the field named
end in the source is end_ here because end is a Lean keyword). -/
structure CalendarEvent where
  summary : String
  description : JValue
  start : EventTime
  end_ : EventTime
  attendees : List CalendarAttendee
  visibility : String
  status : String
  remindersUseDefault : Bool

/-- The record inserted into the meetings table at app.py lines 156 to 163. -/
structure MeetingRecord where
  event_id : String
  title : String
  start_time : String
  description : JValue
  attendees : JValue
  agenda : JValue

/-- External collaborators of the application: calendar-service availability,
the calendar insert call, and the Supabase client with its insert call. An
error value models the call raising, carrying str(e). -/
structure Env where
  calendarService : Bool
  insertEvent : CalendarEvent → Except String String
  supabaseConfigured : Bool
  supabaseInsert : MeetingRecord → Except String Unit

/-- Message of app.py line 110. -/
def missingCredsMsg : String :=
  "Looks like your Google Calendar credentials are missing or invalid. Please ensure credentials.json is in the project directory and re-authenticate."

/-- Message of app.py line 166. -/
def degradedMsg : String :=
  "Meeting scheduled, but failed to store in Supabase."

/-- Message of app.py lines 259 and 326. -/
def nothingMsg : String :=
  "Hmm, I don’t have any meeting details to schedule yet. Try sharing some details first!"

/-- Message of app.py line 305. -/
def jsonDecodeMsg : String :=
  "Oops, I had trouble understanding your meeting details. Could you clarify the title, date, or attendees?"

/-- Message of app.py line 314, parameterized by str(e). -/
def genericErrorMsg (e : String) : String :=
  "Hmm, something went wrong while processing your request: " ++ e ++ ". Could you try again with the details?"

/-- Message of app.py line 248, parameterized by the event id. -/
def allDoneMsg (eid : String) : String :=
  "All done! Your meeting’s scheduled with Event ID: " ++ eid ++ ". Check your Google Calendar and email for the details!"

/-- Message of app.py line 171, parameterized by str(e). -/
def schedulingFailedMsg (e : String) : String :=
  "Oops, I couldn’t schedule the meeting: " ++ e ++ ". Please check if credentials.json is valid, re-authenticate if needed, and ensure your Google Calendar is accessible."

/-- Title fallback of app.py lines 114 to 117: a non-string or a blank string
becomes the literal Meeting. -/
def resolveTitle : JValue → String
  | .jstr s => if pyStrip s == "" then "Meeting" else s
  | _ => "Meeting"

/-- Description and agenda combination of app.py lines 119 to 123: with a
truthy agenda the description sent onward is a string with the agenda
appended; otherwise the description value is passed through untouched. -/
def combinedDescription (description agenda : JValue) : JValue :=
  if agenda.truthy then
    .jstr (if description.truthy then pyStr description ++ "\n\nAgenda: " ++ pyStr agenda
           else "Agenda: " ++ pyStr agenda)
  else description

/-- Model of Python iteration over a JSON-derived value, as used by the
attendee list comprehension at app.py line 139. -/
def pyIterate : JValue → Except PyErr (List JValue)
  | .jarr items => .ok items
  | .jstr s => .ok (s.data.map (fun c => .jstr (String.singleton c)))
  | .jobj fields => .ok (fields.map (fun p => .jstr p.1))
  | v => .error (.typeError ("\x27" ++ pyStr v ++ "\x27 object is not iterable"))

/-- The calendar event body of app.py lines 128 to 145, including the fixed
60-minute end time. -/
def buildEvent (details : MeetingDetails) : Except PyErr CalendarEvent :=
  let title := resolveTitle details.title
  let description := combinedDescription details.description details.agenda
  match pyIterate details.attendees with
  | .error e => .error e
  | .ok items =>
    .ok { summary := title
          description := description
          start := { dateTime := pyIsoformat details.start_time, timeZone := details.timezone }
          end_ := { dateTime := pyIsoformat (addMinutes details.start_time 60), timeZone := details.timezone }
          attendees := items.map (fun v => { email := v })
          visibility := "default"
          status := "confirmed"
          remindersUseDefault := true }

/-- The Supabase record of app.py lines 156 to 163; title, description and
agenda are the same local values used for the calendar event. -/
def buildRecord (eid : String) (details : MeetingDetails) : MeetingRecord :=
  { event_id := eid
    title := resolveTitle details.title
    start_time := pyIsoformat details.start_time
    description := combinedDescription details.description details.agenda
    attendees := details.attendees
    agenda := details.agenda }

/-- Model of schedule_meeting at app.py lines 105 to 171. The pair returned is
the event id (when created) and the user-facing error or degraded-success
message; the outer try converts any internal exception into the generic
scheduling-failed message. -/
def schedule_meeting (env : Env) (details : MeetingDetails) : Option String × Option String :=
  if !env.calendarService then
    (none, some missingCredsMsg)
  else
    match buildEvent details with
    | .error e => (none, some (schedulingFailedMsg (pyErrStr e)))
    | .ok event =>
      match env.insertEvent event with
      | .error emsg => (none, some (schedulingFailedMsg emsg))
      | .ok eid =>
        if env.supabaseConfigured then
          match env.supabaseInsert (buildRecord eid details) with
          | .error _ => (some eid, some degradedMsg)
          | .ok _ => (some eid, none)
        else (some eid, none)

/-- Values appearing in the jsonify bodies of app.py: strings, the Python
None, or the chat history list. -/
inductive RespVal where
  | str (s : String)
  | null
  | history (h : List ChatTurn)

/-- An HTTP response: status code and the ordered key-value body passed to
jsonify. -/
structure HttpResponse where
  status : Nat
  body : List (String × RespVal)

/-- The jsonify reply shape repeated throughout app.py (lines 254, 262, 270,
299, 308, 317, 329 and 342): a message and the full chat history, with the
implicit 200 status. -/
def jsonReply (message : Option String) (history : List ChatTurn) : HttpResponse :=
  { status := 200
    body := [("message", match message with | some s => .str s | none => .null),
             ("chat_history", .history history)] }

/-- The 400 validation response of app.py lines 184 to 187. -/
def bad400 (st : SessionState) : HttpResponse :=
  { status := 400
    body := [("error", .str "No input provided."), ("chat_history", .history st.chat_history)] }

/-- Python truthiness of an optional string (None and the empty string are
falsy). -/
def pyTruthyOpt : Option String → Bool
  | none => false
  | some s => s != ""

/-- The get call on the prior meeting-details dict with a default, as in
app.py lines 283 to 288; an empty dict always yields the default. -/
def priorField (prior : Option MeetingDetails) (f : MeetingDetails → JValue) (dflt : JValue) : JValue :=
  match prior with
  | none => dflt
  | some m => f m

/-- The meeting-details dict literal of app.py lines 282 to 289. The required
keys are read from the parsed reply in source order (title, description,
agenda, attendees, timezone); a missing key raises KeyError and aborts the
whole merge. Each present field keeps the extracted value when truthy and
otherwise falls back to the prior value or the listed default. -/
def mergeDetails (corrected : JValue) (start_time : PyDateTime) (prior : Option MeetingDetails) :
    Except PyErr MeetingDetails :=
  match pyGetItem corrected "title" with
  | .error e => .error e
  | .ok titleV =>
    match pyGetItem corrected "description" with
    | .error e => .error e
    | .ok descV =>
      match pyGetItem corrected "agenda" with
      | .error e => .error e
      | .ok agendaV =>
        match pyGetItem corrected "attendees" with
        | .error e => .error e
        | .ok attV =>
          match pyGetItem corrected "timezone" with
          | .error e => .error e
          | .ok tzV =>
            .ok { title := if titleV.truthy then titleV else priorField prior MeetingDetails.title (.jstr "Meeting")
                  description := if descV.truthy then descV else priorField prior MeetingDetails.description (.jstr "")
                  agenda := if agendaV.truthy then agendaV else priorField prior MeetingDetails.agenda (.jstr "")
                  start_time := start_time
                  attendees := if attV.truthy then attV else priorField prior MeetingDetails.attendees (.jarr [])
                  timezone := if tzV.truthy then tzV else priorField prior MeetingDetails.timezone (.jstr "Asia/Kolkata") }

/-- All-strings view of a list of JSON values, for the join call. -/
def asStrList : List JValue → Option (List String)
  | [] => some []
  | .jstr s :: rest => (asStrList rest).map (fun l => s :: l)
  | _ => none

/-- Model of joining with a comma-space separator as at app.py line 291:
joining a list requires string elements, joining a string joins its
characters, anything else raises TypeError. -/
def pyJoinComma : JValue → Except PyErr String
  | .jarr items =>
    match asStrList items with
    | some l => .ok (String.intercalate ", " l)
    | none => .error (.typeError "sequence item 0: expected str instance")
  | .jstr s => .ok (String.intercalate ", " (s.data.map String.singleton))
  | _ => .error (.typeError "can only join an iterable")

/-- The attendees display string of app.py line 291. -/
def attendeesStrE (att : JValue) : Except PyErr String :=
  if att.truthy then pyJoinComma att else .ok "no attendees"

/-- The confirmation-seeking summary of app.py line 294. -/
def summaryMessage (md : MeetingDetails) (attendees_str : String) : String :=
  "Sir, I’ve got your " ++ pyStr md.title ++ " set for " ++ pyStrftime md.start_time ++ " "
    ++ pyStr md.timezone ++ " with " ++ attendees_str ++ ". Description: "
    ++ (if md.description.truthy then pyStr md.description else "none") ++ ". Agenda: "
    ++ (if md.agenda.truthy then pyStr md.agenda else "none")
    ++ ". Just say \x27Confirm the meeting\x27 to lock it in, or tweak it in the form!"

/-- The try block of app.py lines 243 to 302. An error result carries the
exception together with the global state at the moment it was raised, since
the user turn and a merged draft persist across a raise. -/
def transcribeTry (env : Env) (st1 : SessionState) (cleaned_response json_str conversational_message : String) :
    Except (PyErr × SessionState) (HttpResponse × SessionState) :=
  if cleaned_response == "SCHEDULE" then
    match st1.meeting_details with
    | some details =>
      let r := schedule_meeting env details
      let message : Option String :=
        if pyTruthyOpt r.1 then some (allDoneMsg (r.1.getD "")) else r.2
      let details2 : Option MeetingDetails := if pyTruthyOpt r.1 then none else some details
      let st2 : SessionState := ⟨st1.chat_history ++ [⟨"Assistant", message⟩], details2⟩
      .ok (jsonReply message st2.chat_history, st2)
    | none =>
      let st2 : SessionState := ⟨st1.chat_history ++ [⟨"Assistant", some nothingMsg⟩], st1.meeting_details⟩
      .ok (jsonReply (some nothingMsg) st2.chat_history, st2)
  else if pyStartsWith cleaned_response "CLARIFY" then
    let st2 : SessionState := ⟨st1.chat_history ++ [⟨"Assistant", some cleaned_response⟩], st1.meeting_details⟩
    .ok (jsonReply (some cleaned_response) st2.chat_history, st2)
  else
    match jsonLoads json_str with
    | .error e => .error (e, st1)
    | .ok corrected =>
      match pyGetItem corrected "date" with
      | .error e => .error (e, st1)
      | .ok dateV =>
        match pyGetItem corrected "time" with
        | .error e => .error (e, st1)
        | .ok timeV =>
          match pyStrptime (pyStr dateV ++ " " ++ pyStr timeV) with
          | .error e => .error (e, st1)
          | .ok dt0 =>
            match pyGetItem corrected "timezone" with
            | .error e => .error (e, st1)
            | .ok tzV =>
              match pytzTimezone tzV with
              | .error e => .error (e, st1)
              | .ok zone =>
                let start_time : PyDateTime := { dt0 with tz := zone }
                match mergeDetails corrected start_time st1.meeting_details with
                | .error e => .error (e, st1)
                | .ok md =>
                  let stM : SessionState := ⟨st1.chat_history, some md⟩
                  match attendeesStrE md.attendees with
                  | .error e => .error (e, stM)
                  | .ok attendees_str =>
                    let message :=
                      if pyStrip conversational_message == "" then summaryMessage md attendees_str
                      else conversational_message
                    let st2 : SessionState := ⟨stM.chat_history ++ [⟨"Assistant", some message⟩], stM.meeting_details⟩
                    .ok (jsonReply (some message) st2.chat_history, st2)

/-- The transcribe route of app.py lines 179 to 320. The model reply is an
input, since the language-model collaborator is external. An error result is
an exception escaping to the HTTP boundary (a 500), carrying the global state
left behind; the only such exception is the NameError of line 242, raised
before the try block whenever the cleaned reply has no brace-delimited
substring. -/
def transcribe (env : Env) (st : SessionState) (user_input : Option String) (response : String) :
    Except (PyErr × SessionState) (HttpResponse × SessionState) :=
  match user_input with
  | none => .ok (bad400 st, st)
  | some u =>
    if u == "" then .ok (bad400 st, st)
    else
      let st1 : SessionState := ⟨st.chat_history ++ [⟨"user", some u⟩], st.meeting_details⟩
      let cleaned_response := cleanResponse response
      match jsonSearch cleaned_response with
      | none => .error (.nameError "cleaned", st1)
      | some json_str =>
        let conversational_message := pyStrip (pyReplace cleaned_response json_str "")
        match transcribeTry env st1 cleaned_response json_str conversational_message with
        | .ok result => .ok result
        | .error (.jsonDecodeError, stE) =>
          let st2 : SessionState := ⟨stE.chat_history ++ [⟨"Assistant", some jsonDecodeMsg⟩], stE.meeting_details⟩
          .ok (jsonReply (some jsonDecodeMsg) st2.chat_history, st2)
        | .error (e, stE) =>
          let m := genericErrorMsg (pyErrStr e)
          let st2 : SessionState := ⟨stE.chat_history ++ [⟨"Assistant", some m⟩], stE.meeting_details⟩
          .ok (jsonReply (some m) st2.chat_history, st2)

/-- The schedule route of app.py lines 322 to 345. -/
def schedule (env : Env) (st : SessionState) : HttpResponse × SessionState :=
  match st.meeting_details with
  | none =>
    let st2 : SessionState := ⟨st.chat_history ++ [⟨"Assistant", some nothingMsg⟩], none⟩
    (jsonReply (some nothingMsg) st2.chat_history, st2)
  | some details =>
    let r := schedule_meeting env details
    let message : Option String :=
      if pyTruthyOpt r.1 then some (allDoneMsg (r.1.getD "")) else r.2
    let details2 : Option MeetingDetails := if pyTruthyOpt r.1 then none else some details
    let st2 : SessionState := ⟨st.chat_history ++ [⟨"Assistant", message⟩], details2⟩
    (jsonReply message st2.chat_history, st2)

/-- Environment with every external call succeeding (event id evt_1). -/
def envW : Env :=
  { calendarService := true, insertEvent := fun _ => .ok "evt_1",
    supabaseConfigured := true, supabaseInsert := fun _ => .ok () }

/-- Environment whose collaborators are never reached on the paths under
study. -/
def envUnused : Env :=
  { calendarService := false, insertEvent := fun _ => .error "x",
    supabaseConfigured := false, supabaseInsert := fun _ => .ok () }

/-- Environment with no calendar service obtainable (missing credentials). -/
def envNoCreds : Env :=
  { calendarService := false, insertEvent := fun _ => .ok "evt_1",
    supabaseConfigured := true, supabaseInsert := fun _ => .ok () }

/-- Environment whose calendar insert call raises. -/
def envCalFail : Env :=
  { calendarService := true, insertEvent := fun _ => .error "boom",
    supabaseConfigured := true, supabaseInsert := fun _ => .ok () }

/-- Environment where the event is created but the Supabase insert raises. -/
def envPersistFail : Env :=
  { calendarService := true, insertEvent := fun _ => .ok "evt_1",
    supabaseConfigured := true, supabaseInsert := fun _ => .error "db down" }

/-- A fully populated meeting draft. -/
def draftW : MeetingDetails :=
  { title := .jstr "Standup", description := .jstr "", agenda := .jstr "",
    start_time := ⟨2025, 5, 19, 9, 0, "Asia/Kolkata"⟩,
    attendees := .jarr [], timezone := .jstr "Asia/Kolkata" }

/-- A draft with a non-empty description and agenda. -/
def draftAg : MeetingDetails :=
  { draftW with description := .jstr "Notes", agenda := .jstr "1. Intro" }

/-- A prior draft holding two attendees. -/
def priorAB : MeetingDetails :=
  { draftW with attendees := .jarr [.jstr "a@example.com", .jstr "b@example.com"] }

/-- Parsed extraction with title, description and agenda present but no
attendees key. -/
def c8AbsentObj : JValue :=
  .jobj [("title", .jstr "Sync"), ("description", .jstr ""), ("agenda", .jstr "")]

/-- Parsed extraction whose title is whitespace only. -/
def c9WsObj : JValue :=
  .jobj [("title", .jstr "   "), ("description", .jstr ""), ("agenda", .jstr ""),
         ("attendees", .jarr []), ("timezone", .jstr "Asia/Kolkata")]

/-- Nonemptiness of the title of a prior draft (vacuous for the empty dict). -/
def titleNonEmpty : Option MeetingDetails → Prop
  | none => True
  | some m => m.title ≠ .jstr ""

/-- C8 counterexample: an extraction with no attendees key does not merge with
the prior list retained; the dict literal raises KeyError and the merge fails,
refuting the claim that an absent attendee field still lets the merge
succeed. -/
theorem c8_absent_attendees_fails :
    mergeDetails c8AbsentObj ⟨2025, 5, 19, 9, 0, "Asia/Kolkata"⟩ (some priorAB) =
      .error (.keyError "attendees") :=
  rfl

/-- C8 (amended): a non-empty extracted attendee list fully replaces the prior
list; an empty extracted list retains the prior list and the merge succeeds;
an absent attendees key raises KeyError and the merge fails. -/
theorem c8_attendee_merge :
    (∀ o dt prior md xs, mergeDetails (.jobj o) dt prior = .ok md →
       jobjGet o "attendees" = some (.jarr xs) → xs ≠ [] → md.attendees = .jarr xs)
    ∧ (∀ o dt prior md, mergeDetails (.jobj o) dt prior = .ok md →
       jobjGet o "attendees" = some (.jarr []) →
       md.attendees = priorField prior MeetingDetails.attendees (.jarr []))
    ∧ (∀ o dt prior tV dV aV, jobjGet o "attendees" = none →
       jobjGet o "title" = some tV → jobjGet o "description" = some dV →
       jobjGet o "agenda" = some aV →
       mergeDetails (.jobj o) dt prior = .error (.keyError "attendees")) := by
  refine ⟨?_, ?_, ?_⟩
  · intro o dt prior md xs h hget hne
    have hA : pyGetItem (.jobj o) "attendees" = .ok (.jarr xs) := by simp [pyGetItem, hget]
    unfold mergeDetails at h
    repeat' split at h
    all_goals simp_all [JValue.truthy, List.isEmpty_iff]
    all_goals (cases h; rfl)
  · intro o dt prior md h hget
    have hA : pyGetItem (.jobj o) "attendees" = .ok (.jarr []) := by simp [pyGetItem, hget]
    unfold mergeDetails at h
    repeat' split at h
    all_goals simp_all [JValue.truthy]
    all_goals (cases h; rfl)
  · intro o dt prior tV dV aV hnone ht hd ha
    have hT : pyGetItem (.jobj o) "title" = .ok tV := by simp [pyGetItem, ht]
    have hD : pyGetItem (.jobj o) "description" = .ok dV := by simp [pyGetItem, hd]
    have hG : pyGetItem (.jobj o) "agenda" = .ok aV := by simp [pyGetItem, ha]
    have hA : pyGetItem (.jobj o) "attendees" = .error (.keyError "attendees") := by
      simp [pyGetItem, hnone]
    unfold mergeDetails
    rw [hT, hD, hG, hA]

/-- Datetime used for concrete merges. -/
def dtW : PyDateTime := ⟨2025, 5, 19, 9, 0, "Asia/Kolkata"⟩

/-- A truthy value is never the empty JSON string. -/
theorem truthy_ne_empty (v : JValue) (h : v.truthy = true) : v ≠ .jstr "" := by
  cases v <;> simp_all [JValue.truthy]

/-- Successful merges expose the per-field use-extracted-or-fall-back chains
of app.py lines 282 to 289. -/
theorem mergeDetails_ok_shape (corrected : JValue) (dt : PyDateTime)
    (prior : Option MeetingDetails) (md : MeetingDetails)
    (h : mergeDetails corrected dt prior = .ok md) :
    ∃ tV dV aV attV tzV,
      pyGetItem corrected "title" = .ok tV ∧ pyGetItem corrected "description" = .ok dV ∧
      pyGetItem corrected "agenda" = .ok aV ∧ pyGetItem corrected "attendees" = .ok attV ∧
      pyGetItem corrected "timezone" = .ok tzV ∧
      md = { title := if tV.truthy then tV else priorField prior MeetingDetails.title (.jstr "Meeting")
             description := if dV.truthy then dV else priorField prior MeetingDetails.description (.jstr "")
             agenda := if aV.truthy then aV else priorField prior MeetingDetails.agenda (.jstr "")
             start_time := dt
             attendees := if attV.truthy then attV else priorField prior MeetingDetails.attendees (.jarr [])
             timezone := if tzV.truthy then tzV else priorField prior MeetingDetails.timezone (.jstr "Asia/Kolkata") } := by
  unfold mergeDetails at h
  repeat' split at h
  all_goals first
    | (cases h;
       refine ⟨_, _, _, _, _, by assumption, by assumption, by assumption, by assumption, by assumption, ?_⟩;
       simp_all)
    | (cases h)

/-- Extraction with one attendee, all required keys present. -/
def c8FieldsC : List (String × JValue) :=
  [("title", .jstr "Sync"), ("description", .jstr ""), ("agenda", .jstr ""),
   ("attendees", .jarr [.jstr "c@example.com"]), ("timezone", .jstr "Asia/Kolkata")]

/-- Extraction with an empty attendee list. -/
def c8FieldsE : List (String × JValue) :=
  [("title", .jstr "Sync"), ("description", .jstr ""), ("agenda", .jstr ""),
   ("attendees", .jarr []), ("timezone", .jstr "Asia/Kolkata")]

/-- Fields of the extraction with no attendees key. -/
def c8AbsentFields : List (String × JValue) :=
  [("title", .jstr "Sync"), ("description", .jstr ""), ("agenda", .jstr "")]

/-- Draft merged from c8FieldsC over the prior with two attendees. -/
def c8Md1 : MeetingDetails :=
  { title := .jstr "Sync", description := .jstr "", agenda := .jstr "",
    start_time := dtW, attendees := .jarr [.jstr "c@example.com"],
    timezone := .jstr "Asia/Kolkata" }

/-- Draft merged from c8FieldsE over the prior with two attendees. -/
def c8Md2 : MeetingDetails := { c8Md1 with attendees := priorAB.attendees }

/-- C8 witness: merging prior attendees a and b with extracted list c yields
exactly c; an empty extracted list keeps the prior list; the absent key case
fails with KeyError. -/
theorem c8_attendee_merge_witness :
    c8Md1.attendees = .jarr [.jstr "c@example.com"]
    ∧ c8Md2.attendees = priorField (some priorAB) MeetingDetails.attendees (.jarr [])
    ∧ mergeDetails (.jobj c8AbsentFields) dtW (some priorAB) = .error (.keyError "attendees") :=
  ⟨c8_attendee_merge.1 c8FieldsC dtW (some priorAB) c8Md1 [.jstr "c@example.com"] rfl rfl
     (List.cons_ne_nil _ _),
   c8_attendee_merge.2.1 c8FieldsE dtW (some priorAB) c8Md2 rfl rfl,
   c8_attendee_merge.2.2 c8AbsentFields dtW (some priorAB) (.jstr "Sync") (.jstr "") (.jstr "")
     rfl rfl rfl rfl⟩

/-- C9 counterexample: an extracted title of three spaces is truthy, so it
enters the draft unchanged; the merged title is whitespace only, refuting the
never-whitespace-only invariant at merge time. -/
theorem c9_whitespace_title_enters_draft :
    (mergeDetails c9WsObj dtW none).map MeetingDetails.title = .ok (.jstr "   ")
    ∧ pyStrip "   " = "" :=
  ⟨rfl, rfl⟩

/-- C9 (amended): after a successful merge the title is never the empty
string (empty extracted titles fall back to the prior title or Meeting, and
merging an empty extracted title with no prior yields Meeting), but it can be
whitespace-only; the whitespace guard is applied only at scheduling time,
where the event summary is never blank. -/
theorem c9_title_fallbacks :
    (∀ o dt prior md, mergeDetails (.jobj o) dt prior = .ok md → titleNonEmpty prior →
       md.title ≠ .jstr "")
    ∧ (∀ o dt md, mergeDetails (.jobj o) dt none = .ok md → jobjGet o "title" = some (.jstr "") →
       md.title = .jstr "Meeting")
    ∧ (∀ v, pyStrip (resolveTitle v) ≠ "") := by
  refine ⟨?_, ?_, ?_⟩
  · intro o dt prior md h hprior
    obtain ⟨tV, dV, aV, attV, tzV, hT, hD, hG, hA, hZ, hmd⟩ := mergeDetails_ok_shape _ _ _ _ h
    subst hmd
    show (if tV.truthy then tV else priorField prior MeetingDetails.title (.jstr "Meeting")) ≠ .jstr ""
    split
    · next ht => exact truthy_ne_empty _ ht
    · cases prior with
      | none => simp [priorField]
      | some m => simpa [priorField, titleNonEmpty] using hprior
  · intro o dt md h hget
    obtain ⟨tV, dV, aV, attV, tzV, hT, hD, hG, hA, hZ, hmd⟩ := mergeDetails_ok_shape _ _ _ _ h
    have htv : tV = .jstr "" := by
      simp [pyGetItem, hget] at hT
      exact hT.symm
    subst hmd htv
    simp [JValue.truthy, priorField]
  · intro v
    cases v <;> simp only [resolveTitle]
    all_goals try decide
    next s =>
      split
      · decide
      · next hc => simpa using hc

/-- Extraction with a non-empty title, used for the C9 witness. -/
def c9FieldsA : List (String × JValue) :=
  [("title", .jstr "Standup"), ("description", .jstr ""), ("agenda", .jstr ""),
   ("attendees", .jarr []), ("timezone", .jstr "Asia/Kolkata")]

/-- Extraction with an empty title, used for the C9 witness. -/
def c9FieldsB : List (String × JValue) :=
  [("title", .jstr ""), ("description", .jstr ""), ("agenda", .jstr ""),
   ("attendees", .jarr []), ("timezone", .jstr "Asia/Kolkata")]

/-- Draft merged from c9FieldsB with no prior. -/
def c9MdB : MeetingDetails := { draftW with title := .jstr "Meeting" }

/-- C9 witness at concrete merges. -/
theorem c9_title_fallbacks_witness :
    draftW.title ≠ .jstr ""
    ∧ c9MdB.title = .jstr "Meeting"
    ∧ pyStrip (resolveTitle (.jstr "   ")) ≠ "" :=
  ⟨c9_title_fallbacks.1 c9FieldsA dtW none draftW rfl trivial,
   c9_title_fallbacks.2.1 c9FieldsB dtW c9MdB rfl rfl,
   c9_title_fallbacks.2.2 (.jstr "   ")⟩

/-- C1 (as the code behaves): whenever the cleaned model reply contains no
brace-delimited substring, the transcribe handler raises NameError for the
undefined name cleaned at app.py line 242, outside the try block, so the
fault escapes uncaught to the HTTP boundary with only the user turn appended
to the transcript. -/
theorem c1_no_json_raises_nameerror (env : Env) (st : SessionState) (u response : String)
    (hu : u ≠ "") (hs : jsonSearch (cleanResponse response) = none) :
    transcribe env st (some u) response =
      .error (.nameError "cleaned", ⟨st.chat_history ++ [⟨"user", some u⟩], st.meeting_details⟩) := by
  unfold transcribe
  simp [hu, hs]

/-- C1 witness at the literal SCHEDULE reply. -/
theorem c1_no_json_raises_nameerror_witness :
    "confirm" ≠ "" ∧ jsonSearch (cleanResponse "SCHEDULE") = none
    ∧ transcribe envUnused ⟨[], some draftW⟩ (some "confirm") "SCHEDULE" =
        .error (.nameError "cleaned", ⟨[⟨"user", some "confirm"⟩], some draftW⟩) :=
  ⟨by decide, rfl,
   c1_no_json_raises_nameerror envUnused ⟨[], some draftW⟩ "confirm" "SCHEDULE" (by decide) rfl⟩

/-- C2 (as the code behaves): the literal SCHEDULE reply and a plain CLARIFY
reply never reach their branches at app.py lines 244 to 273; both crash with
the NameError of line 242 first, because neither contains a brace pair. -/
theorem c2_schedule_clarify_branches_unreachable :
    transcribe envUnused ⟨[], some draftW⟩ (some "confirm") "SCHEDULE" =
      .error (.nameError "cleaned", ⟨[⟨"user", some "confirm"⟩], some draftW⟩)
    ∧ transcribe envUnused ⟨[], some draftW⟩ (some "hi") "CLARIFY: need more info" =
      .error (.nameError "cleaned", ⟨[⟨"user", some "hi"⟩], some draftW⟩) :=
  ⟨rfl, rfl⟩

/-- C4 (as the code behaves): when the event is created but the Supabase
insert fails, schedule_meeting does return the degraded-success message, but
the schedule route tests only the event id and replies with the full-success
message, discarding the degraded one; the draft is cleared. -/
theorem c4_degraded_message_discarded :
    schedule_meeting envPersistFail draftW = (some "evt_1", some degradedMsg)
    ∧ schedule envPersistFail ⟨[], some draftW⟩ =
        (jsonReply (some (allDoneMsg "evt_1")) [⟨"Assistant", some (allDoneMsg "evt_1")⟩],
         ⟨[⟨"Assistant", some (allDoneMsg "evt_1")⟩], none⟩)
    ∧ allDoneMsg "evt_1" ≠ degradedMsg :=
  ⟨rfl, rfl, by decide⟩

/-- C7: with a non-empty draft, a successful scheduling call (truthy event id)
clears the draft and a subsequent confirmation reports nothing to schedule,
while any failing scheduling call (no event id, which covers missing
credentials and calendar errors) leaves the draft unchanged for retry. -/
theorem c7_draft_lifecycle :
    (∀ env st d eid msg2, st.meeting_details = some d →
       schedule_meeting env d = (some eid, msg2) → eid ≠ "" →
       (schedule env st).2.meeting_details = none
       ∧ (schedule env (schedule env st).2).1 =
           jsonReply (some nothingMsg)
             ((schedule env st).2.chat_history ++ [⟨"Assistant", some nothingMsg⟩]))
    ∧ (∀ env st d msg, st.meeting_details = some d →
       schedule_meeting env d = (none, msg) →
       (schedule env st).2 = ⟨st.chat_history ++ [⟨"Assistant", msg⟩], some d⟩) := by
  constructor
  · intro env st d eid msg2 hd hsm he
    obtain ⟨hist, det⟩ := st
    simp only at hd
    subst hd
    have hb : pyTruthyOpt (some eid) = true := by simp [pyTruthyOpt, he]
    simp [schedule, hsm, hb]
  · intro env st d msg hd hsm
    obtain ⟨hist, det⟩ := st
    simp only at hd
    subst hd
    simp [schedule, hsm, pyTruthyOpt]

/-- C7 witness: a stub calendar returning evt_1 clears the draft and the next
confirmation reports nothing to schedule; missing credentials preserve the
draft. -/
theorem c7_draft_lifecycle_witness :
    ((schedule envW ⟨[], some draftW⟩).2.meeting_details = none
     ∧ (schedule envW (schedule envW ⟨[], some draftW⟩).2).1 =
         jsonReply (some nothingMsg)
           ((schedule envW ⟨[], some draftW⟩).2.chat_history ++ [⟨"Assistant", some nothingMsg⟩]))
    ∧ (schedule envNoCreds ⟨[], some draftW⟩).2 =
        ⟨[⟨"Assistant", some missingCredsMsg⟩], some draftW⟩ :=
  ⟨c7_draft_lifecycle.1 envW ⟨[], some draftW⟩ draftW "evt_1" none rfl rfl (by decide),
   c7_draft_lifecycle.2 envNoCreds ⟨[], some draftW⟩ draftW (some missingCredsMsg) rfl rfl⟩

/-- C10: with a non-empty agenda, the description sent to the calendar event
and to the persistence record is the concatenation of the description with
the agenda appended (or just the agenda line when the description is empty),
while the draft itself, including its description field, survives unchanged
in the session state (shown on the retained-draft path). -/
theorem c10_agenda_concatenation :
    ∀ (d : MeetingDetails) (s a : String), d.description = .jstr s → d.agenda = .jstr a → a ≠ "" →
      (∀ ev, buildEvent d = .ok ev →
         ev.description = .jstr (if s = "" then "Agenda: " ++ a else s ++ "\n\nAgenda: " ++ a))
      ∧ (∀ eid, (buildRecord eid d).description =
           .jstr (if s = "" then "Agenda: " ++ a else s ++ "\n\nAgenda: " ++ a))
      ∧ (∀ env st msg, st.meeting_details = some d → schedule_meeting env d = (none, msg) →
           (schedule env st).2.meeting_details = some d) := by
  intro d s a hd ha hane
  have hcomb : combinedDescription d.description d.agenda =
      .jstr (if s = "" then "Agenda: " ++ a else s ++ "\n\nAgenda: " ++ a) := by
    rw [hd, ha]
    simp [combinedDescription, JValue.truthy, hane, pyStr]
  refine ⟨?_, ?_, ?_⟩
  · intro ev hev
    unfold buildEvent at hev
    split at hev
    · exact absurd hev (by simp)
    · cases hev
      simpa using hcomb
  · intro eid
    unfold buildRecord
    simpa using hcomb
  · intro env st msg hst hsm
    obtain ⟨hist, det⟩ := st
    simp only at hst
    subst hst
    simp [schedule, hsm, pyTruthyOpt]

/-- The calendar event built from draftAg. -/
def evAg : CalendarEvent :=
  { summary := "Standup", description := .jstr "Notes\n\nAgenda: 1. Intro",
    start := ⟨"2025-05-19T09:00:00", .jstr "Asia/Kolkata"⟩,
    end_ := ⟨"2025-05-19T10:00:00", .jstr "Asia/Kolkata"⟩,
    attendees := [], visibility := "default", status := "confirmed",
    remindersUseDefault := true }

/-- C10 witness at a concrete draft with description Notes and agenda
1. Intro. -/
theorem c10_agenda_concatenation_witness :
    evAg.description = .jstr "Notes\n\nAgenda: 1. Intro"
    ∧ (buildRecord "evt_1" draftAg).description = .jstr "Notes\n\nAgenda: 1. Intro"
    ∧ (schedule envNoCreds ⟨[], some draftAg⟩).2.meeting_details = some draftAg :=
  ⟨(c10_agenda_concatenation draftAg "Notes" "1. Intro" rfl rfl (by decide)).1 evAg rfl,
   (c10_agenda_concatenation draftAg "Notes" "1. Intro" rfl rfl (by decide)).2.1 "evt_1",
   (c10_agenda_concatenation draftAg "Notes" "1. Intro" rfl rfl (by decide)).2.2
     envNoCreds ⟨[], some draftAg⟩ (some missingCredsMsg) rfl rfl⟩

/-- Lookup of a key in a jsonify body. -/
def bodyLookup (b : List (String × RespVal)) (k : String) : Option RespVal :=
  (b.find? (fun p => p.1 == k)).map (fun p => p.2)

/-- Every successful result of the try block is a jsonReply carrying the full
chat history of the state it returns. -/
theorem transcribeTry_ok_shape (env : Env) (st1 : SessionState) (c j v : String)
    (r : HttpResponse) (st2 : SessionState)
    (h : transcribeTry env st1 c j v = .ok (r, st2)) :
    ∃ m, r = jsonReply m st2.chat_history := by
  unfold transcribeTry at h
  dsimp only at h
  repeat' split at h
  all_goals first
    | (cases h; exact ⟨_, rfl⟩)
    | (cases h)

/-- Every response of the transcribe route is the 400 body or a jsonReply
carrying the full chat history. -/
theorem transcribe_ok_cases (env : Env) (st : SessionState) (u : Option String) (response : String)
    (r : HttpResponse) (st3 : SessionState)
    (h : transcribe env st u response = .ok (r, st3)) :
    (r = bad400 st ∧ st3 = st) ∨ ∃ m, r = jsonReply m st3.chat_history := by
  unfold transcribe at h
  dsimp only at h
  repeat' split at h
  all_goals first
    | (cases h; exact Or.inl ⟨rfl, rfl⟩)
    | (cases h; exact Or.inr ⟨_, rfl⟩)
    | (cases h)
    | skip
  rename_i heq2
  exact Or.inr (transcribeTry_ok_shape _ _ _ _ _ _ _ heq2)

/-- C3 counterexample: a concrete reply of the schedule route has exactly the
keys message and chat_history; no eventId component exists, refuting the
three-component reply shape. -/
theorem c3_no_eventid_key :
    bodyLookup (schedule envUnused ⟨[], none⟩).1.body "eventId" = none
    ∧ (schedule envUnused ⟨[], none⟩).1.body.map Prod.fst = ["message", "chat_history"] :=
  ⟨rfl, rfl⟩

/-- C3 (amended): every reply returned by the transcribe route (other than
the 400 validation response) and by the schedule route is a record with
exactly two components, the assistant message and the full ordered chat
history; no eventId field is present (the event id appears only inside the
message text on success). -/
theorem c3_reply_shape :
    (∀ env st u response r st1, transcribe env st u response = .ok (r, st1) → r.status = 200 →
       r.body.map Prod.fst = ["message", "chat_history"]
       ∧ bodyLookup r.body "chat_history" = some (.history st1.chat_history)
       ∧ bodyLookup r.body "eventId" = none)
    ∧ (∀ env st,
       (schedule env st).1.body.map Prod.fst = ["message", "chat_history"]
       ∧ bodyLookup (schedule env st).1.body "chat_history" =
           some (.history (schedule env st).2.chat_history)
       ∧ bodyLookup (schedule env st).1.body "eventId" = none) := by
  constructor
  · intro env st u response r st1 h hstatus
    rcases transcribe_ok_cases env st u response r st1 h with ⟨hr, _⟩ | ⟨m, hr⟩
    · rw [hr] at hstatus
      simp [bad400] at hstatus
    · subst hr
      simp [jsonReply, bodyLookup]
  · intro env st
    obtain ⟨hist, det⟩ := st
    cases det <;> simp [schedule, jsonReply, bodyLookup]

/-- The transcript left by the C3 witness run. -/
def c3HistW : List ChatTurn :=
  [⟨"user", some "hi"⟩, ⟨"Assistant", some "CLARIFY: give \x7bmore\x7d details"⟩]

/-- C3 witness: a concrete transcribe run (a CLARIFY reply containing a brace
pair, which reaches the CLARIFY branch) returns a 200 reply with exactly the
message and full-transcript components. -/
theorem c3_reply_shape_witness :
    (jsonReply (some "CLARIFY: give \x7bmore\x7d details") c3HistW).body.map Prod.fst =
      ["message", "chat_history"]
    ∧ bodyLookup (jsonReply (some "CLARIFY: give \x7bmore\x7d details") c3HistW).body "chat_history" =
        some (.history c3HistW)
    ∧ bodyLookup (jsonReply (some "CLARIFY: give \x7bmore\x7d details") c3HistW).body "eventId" = none :=
  c3_reply_shape.1 envUnused ⟨[], none⟩ (some "hi") "CLARIFY: give \x7bmore\x7d details"
    (jsonReply (some "CLARIFY: give \x7bmore\x7d details") c3HistW) ⟨c3HistW, none⟩ rfl rfl

/-- Whether a value is a recognized zone name (the invariant the spec states
for the draft timezone). -/
def validTZb : JValue → Bool
  | .jstr z => pytz_all_timezones.contains z
  | _ => false

/-- A successful pytz lookup pins the input to a recognized zone string. -/
theorem pytzTimezone_ok (tzV : JValue) (zone : String) (h : pytzTimezone tzV = .ok zone) :
    tzV = .jstr zone ∧ pytz_all_timezones.contains zone = true := by
  cases tzV <;> unfold pytzTimezone at h
  all_goals dsimp only at h
  all_goals (try cases h)
  rename_i s
  by_cases hc : pytz_all_timezones.contains s = true
  · rw [if_pos hc] at h
    cases h
    exact ⟨rfl, hc⟩
  · rw [if_neg hc] at h
    cases h

/-- The zone table contains no empty name. -/
theorem contains_ne_empty (s : String) (h : pytz_all_timezones.contains s = true) : s ≠ "" := by
  intro he
  subst he
  revert h
  decide

/-- After the pytz check succeeds, the merged draft carries the extracted
zone, which is recognized. -/
theorem merged_tz_valid (corrected : JValue) (dt : PyDateTime) (prior : Option MeetingDetails)
    (md : MeetingDetails) (tzV : JValue) (zone : String)
    (htz : pyGetItem corrected "timezone" = .ok tzV)
    (hpz : pytzTimezone tzV = .ok zone)
    (h : mergeDetails corrected dt prior = .ok md) :
    validTZb md.timezone = true := by
  obtain ⟨hjs, hc⟩ := pytzTimezone_ok tzV zone hpz
  obtain ⟨tV, dV, aV, attV, tzV0, hT, hD, hG, hA, hZ, hmd⟩ := mergeDetails_ok_shape _ _ _ _ h
  have h0 : tzV0 = tzV := by
    rw [htz] at hZ
    cases hZ
    rfl
  subst h0 hjs hmd
  have hne : zone ≠ "" := contains_ne_empty zone hc
  have htr : (JValue.jstr zone).truthy = true := by simp [JValue.truthy, hne]
  show validTZb (if (JValue.jstr zone).truthy = true then JValue.jstr zone
    else priorField prior MeetingDetails.timezone (.jstr "Asia/Kolkata")) = true
  rw [if_pos htr]
  simpa [validTZb] using hc

/-- Any draft present after a successful try block is the untouched prior or
carries a recognized timezone. -/
theorem transcribeTry_details_ok (env : Env) (st1 : SessionState) (c j v : String)
    (r : HttpResponse) (st2 : SessionState)
    (h : transcribeTry env st1 c j v = .ok (r, st2)) (d : MeetingDetails)
    (hd : st2.meeting_details = some d) :
    st1.meeting_details = some d ∨ validTZb d.timezone = true := by
  unfold transcribeTry at h
  dsimp only at h
  repeat' split at h
  all_goals (try cases h)
  all_goals simp_all
  all_goals first
    | (left; rfl)
    | (right; exact merged_tz_valid _ _ _ _ _ _ (by assumption) (by assumption) (by assumption))

/-- Any draft carried by an exception escaping the try block is the untouched
prior or carries a recognized timezone. -/
theorem transcribeTry_details_err (env : Env) (st1 : SessionState) (c j v : String)
    (e : PyErr) (stE : SessionState)
    (h : transcribeTry env st1 c j v = .error (e, stE)) (d : MeetingDetails)
    (hd : stE.meeting_details = some d) :
    st1.meeting_details = some d ∨ validTZb d.timezone = true := by
  unfold transcribeTry at h
  dsimp only at h
  repeat' split at h
  all_goals (try cases h)
  all_goals simp_all
  all_goals first
    | (left; rfl)
    | (right; exact merged_tz_valid _ _ _ _ _ _ (by assumption) (by assumption) (by assumption))

/-- Any draft present after a transcribe turn is the untouched prior or
carries a recognized timezone. -/
theorem transcribe_details (env : Env) (st : SessionState) (u : Option String) (response : String)
    (r : HttpResponse) (st3 : SessionState)
    (h : transcribe env st u response = .ok (r, st3)) (d : MeetingDetails)
    (hd : st3.meeting_details = some d) :
    st.meeting_details = some d ∨ validTZb d.timezone = true := by
  unfold transcribe at h
  dsimp only at h
  repeat' split at h
  all_goals (try cases h)
  all_goals first
    | exact Or.inl hd
    | (rename_i heq2; exact transcribeTry_details_ok _ _ _ _ _ _ _ heq2 d hd)
    | (rename_i heq2; exact transcribeTry_details_err _ _ _ _ _ _ _ heq2 d hd)

/-- The try block propagates any exception raised on the way to the merge
(loads, required-key reads, strptime, pytz) with the state it entered with. -/
theorem transcribeTry_early_err (env : Env) (st1 : SessionState) (c j v : String) (e : PyErr)
    (hns : (c == "SCHEDULE") = false) (hnc : pyStartsWith c "CLARIFY" = false)
    (herr :
      jsonLoads j = .error e ∨
      ∃ o, jsonLoads j = .ok o ∧
        (pyGetItem o "date" = .error e ∨
         ∃ dateV, pyGetItem o "date" = .ok dateV ∧
           (pyGetItem o "time" = .error e ∨
            ∃ timeV, pyGetItem o "time" = .ok timeV ∧
              (pyStrptime (pyStr dateV ++ " " ++ pyStr timeV) = .error e ∨
               ∃ dt0, pyStrptime (pyStr dateV ++ " " ++ pyStr timeV) = .ok dt0 ∧
                 (pyGetItem o "timezone" = .error e ∨
                  ∃ tzV, pyGetItem o "timezone" = .ok tzV ∧ pytzTimezone tzV = .error e))))) :
    transcribeTry env st1 c j v = .error (e, st1) := by
  unfold transcribeTry
  rcases herr with h1 | ⟨o, ho, h2 | ⟨dV, hdV, h3 | ⟨tV, htV, h4 | ⟨dt0, hdt, h5 | ⟨tzV, htz, hpz⟩⟩⟩⟩⟩
  all_goals simp [hns, hnc, *]

/-- A non-JSONDecodeError exception from the try block lands in the generic
handler of app.py lines 312 to 320: the reply is the something-went-wrong
message and the meeting details carried by the exception state survive. -/
theorem transcribe_catch_generic (env : Env) (st : SessionState) (u response js : String)
    (e : PyErr) (stE : SessionState)
    (hu : (u == "") = false)
    (hs : jsonSearch (cleanResponse response) = some js)
    (htry : transcribeTry env ⟨st.chat_history ++ [⟨"user", some u⟩], st.meeting_details⟩
              (cleanResponse response) js (pyStrip (pyReplace (cleanResponse response) js "")) =
            .error (e, stE))
    (hne : e ≠ .jsonDecodeError) :
    transcribe env st (some u) response =
      .ok (jsonReply (some (genericErrorMsg (pyErrStr e)))
             (stE.chat_history ++ [⟨"Assistant", some (genericErrorMsg (pyErrStr e))⟩]),
           ⟨stE.chat_history ++ [⟨"Assistant", some (genericErrorMsg (pyErrStr e))⟩],
            stE.meeting_details⟩) := by
  unfold transcribe
  cases e <;> simp_all

/-- Model reply whose JSON parses but lacks the date key. -/
def c5RespW : String := "\x7b\"title\": \"Standup\"\x7d"

/-- Message produced by the generic handler for the missing date key. -/
def c5MsgW : String := genericErrorMsg (pyErrStr (.keyError "date"))

/-- Transcript left by the C5 counterexample run. -/
def c5HistW : List ChatTurn := [⟨"user", some "go"⟩, ⟨"Assistant", some c5MsgW⟩]

/-- C5 counterexample: a parsed payload missing the date key is handled by
the generic catch-all, not the JSON-decode handler; the assistant message is
the something-went-wrong message naming the KeyError, which differs from the
claimed generic could-not-understand message. The draft stays unchanged. -/
theorem c5_missing_key_message_differs :
    transcribe envUnused ⟨[], none⟩ (some "go") c5RespW =
      .ok (jsonReply (some c5MsgW) c5HistW, ⟨c5HistW, none⟩)
    ∧ c5MsgW ≠ jsonDecodeMsg :=
  ⟨rfl, by decide⟩

/-- C5 (amended): a model reply whose extracted JSON parses but lacks any
of the required keys date, time or timezone raises KeyError, caught by the
generic catch-all handler: the assistant message is the something-went-wrong
message naming the missing key (not the JSON-decode could-not-understand
message) and the meeting draft is left unchanged. -/
theorem c5_missing_keys_generic_error :
    (∀ env st u response js o, u ≠ "" →
       jsonSearch (cleanResponse response) = some js →
       ((cleanResponse response) == "SCHEDULE") = false →
       pyStartsWith (cleanResponse response) "CLARIFY" = false →
       jsonLoads js = .ok (.jobj o) → jobjGet o "date" = none →
       transcribe env st (some u) response =
         .ok (jsonReply (some (genericErrorMsg (pyErrStr (.keyError "date"))))
                (st.chat_history ++ [⟨"user", some u⟩]
                   ++ [⟨"Assistant", some (genericErrorMsg (pyErrStr (.keyError "date")))⟩]),
              ⟨st.chat_history ++ [⟨"user", some u⟩]
                 ++ [⟨"Assistant", some (genericErrorMsg (pyErrStr (.keyError "date")))⟩],
               st.meeting_details⟩))
    ∧ (∀ env st u response js o dateV, u ≠ "" →
       jsonSearch (cleanResponse response) = some js →
       ((cleanResponse response) == "SCHEDULE") = false →
       pyStartsWith (cleanResponse response) "CLARIFY" = false →
       jsonLoads js = .ok (.jobj o) → jobjGet o "date" = some dateV → jobjGet o "time" = none →
       transcribe env st (some u) response =
         .ok (jsonReply (some (genericErrorMsg (pyErrStr (.keyError "time"))))
                (st.chat_history ++ [⟨"user", some u⟩]
                   ++ [⟨"Assistant", some (genericErrorMsg (pyErrStr (.keyError "time")))⟩]),
              ⟨st.chat_history ++ [⟨"user", some u⟩]
                 ++ [⟨"Assistant", some (genericErrorMsg (pyErrStr (.keyError "time")))⟩],
               st.meeting_details⟩))
    ∧ (∀ env st u response js o dateV timeV dt0, u ≠ "" →
       jsonSearch (cleanResponse response) = some js →
       ((cleanResponse response) == "SCHEDULE") = false →
       pyStartsWith (cleanResponse response) "CLARIFY" = false →
       jsonLoads js = .ok (.jobj o) → jobjGet o "date" = some dateV →
       jobjGet o "time" = some timeV →
       pyStrptime (pyStr dateV ++ " " ++ pyStr timeV) = .ok dt0 →
       jobjGet o "timezone" = none →
       transcribe env st (some u) response =
         .ok (jsonReply (some (genericErrorMsg (pyErrStr (.keyError "timezone"))))
                (st.chat_history ++ [⟨"user", some u⟩]
                   ++ [⟨"Assistant", some (genericErrorMsg (pyErrStr (.keyError "timezone")))⟩]),
              ⟨st.chat_history ++ [⟨"user", some u⟩]
                 ++ [⟨"Assistant", some (genericErrorMsg (pyErrStr (.keyError "timezone")))⟩],
               st.meeting_details⟩)) := by
  refine ⟨?_, ?_, ?_⟩
  · intro env st u response js o hu hs hns hnc hload hmiss
    have hu2 : (u == "") = false := by simp [hu]
    have htry := transcribeTry_early_err env
      ⟨st.chat_history ++ [⟨"user", some u⟩], st.meeting_details⟩
      (cleanResponse response) js (pyStrip (pyReplace (cleanResponse response) js ""))
      (.keyError "date") hns hnc
      (Or.inr ⟨.jobj o, hload, Or.inl (by simp [pyGetItem, hmiss])⟩)
    exact transcribe_catch_generic env st u response js (.keyError "date") _ hu2 hs htry (by simp)
  · intro env st u response js o dateV hu hs hns hnc hload hdV hmiss
    have hu2 : (u == "") = false := by simp [hu]
    have htry := transcribeTry_early_err env
      ⟨st.chat_history ++ [⟨"user", some u⟩], st.meeting_details⟩
      (cleanResponse response) js (pyStrip (pyReplace (cleanResponse response) js ""))
      (.keyError "time") hns hnc
      (Or.inr ⟨.jobj o, hload, Or.inr ⟨dateV, by simp [pyGetItem, hdV],
        Or.inl (by simp [pyGetItem, hmiss])⟩⟩)
    exact transcribe_catch_generic env st u response js (.keyError "time") _ hu2 hs htry (by simp)
  · intro env st u response js o dateV timeV dt0 hu hs hns hnc hload hdV htV hsp hmiss
    have hu2 : (u == "") = false := by simp [hu]
    have htry := transcribeTry_early_err env
      ⟨st.chat_history ++ [⟨"user", some u⟩], st.meeting_details⟩
      (cleanResponse response) js (pyStrip (pyReplace (cleanResponse response) js ""))
      (.keyError "timezone") hns hnc
      (Or.inr ⟨.jobj o, hload, Or.inr ⟨dateV, by simp [pyGetItem, hdV],
        Or.inr ⟨timeV, by simp [pyGetItem, htV],
          Or.inr ⟨dt0, hsp, Or.inl (by simp [pyGetItem, hmiss])⟩⟩⟩⟩)
    exact transcribe_catch_generic env st u response js (.keyError "timezone") _ hu2 hs htry (by simp)

/-- Model reply missing the time key. -/
def c5RespT : String := "\x7b\"date\": \"2025-05-19\"\x7d"

/-- Generic message for the missing time key. -/
def c5MsgT : String := genericErrorMsg (pyErrStr (.keyError "time"))

/-- Model reply missing only the timezone key. -/
def c5RespZ : String := "\x7b\"date\": \"2025-05-19\", \"time\": \"09:00\"\x7d"

/-- Generic message for the missing timezone key. -/
def c5MsgZ : String := genericErrorMsg (pyErrStr (.keyError "timezone"))

/-- C5 witness: concrete runs for each missing required key. -/
theorem c5_missing_keys_generic_error_witness :
    transcribe envUnused ⟨[], none⟩ (some "go") c5RespW =
      .ok (jsonReply (some c5MsgW) [⟨"user", some "go"⟩, ⟨"Assistant", some c5MsgW⟩],
           ⟨[⟨"user", some "go"⟩, ⟨"Assistant", some c5MsgW⟩], none⟩)
    ∧ transcribe envUnused ⟨[], none⟩ (some "go") c5RespT =
      .ok (jsonReply (some c5MsgT) [⟨"user", some "go"⟩, ⟨"Assistant", some c5MsgT⟩],
           ⟨[⟨"user", some "go"⟩, ⟨"Assistant", some c5MsgT⟩], none⟩)
    ∧ transcribe envUnused ⟨[], none⟩ (some "go") c5RespZ =
      .ok (jsonReply (some c5MsgZ) [⟨"user", some "go"⟩, ⟨"Assistant", some c5MsgZ⟩],
           ⟨[⟨"user", some "go"⟩, ⟨"Assistant", some c5MsgZ⟩], none⟩) :=
  ⟨c5_missing_keys_generic_error.1 envUnused ⟨[], none⟩ "go" c5RespW c5RespW
     [("title", .jstr "Standup")] (by decide) rfl rfl rfl rfl rfl,
   c5_missing_keys_generic_error.2.1 envUnused ⟨[], none⟩ "go" c5RespT c5RespT
     [("date", .jstr "2025-05-19")] (.jstr "2025-05-19") (by decide) rfl rfl rfl rfl rfl rfl,
   c5_missing_keys_generic_error.2.2 envUnused ⟨[], none⟩ "go" c5RespZ c5RespZ
     [("date", .jstr "2025-05-19"), ("time", .jstr "09:00")] (.jstr "2025-05-19") (.jstr "09:00")
     ⟨2025, 5, 19, 9, 0, ""⟩ (by decide) rfl rfl rfl rfl rfl rfl rfl rfl⟩

/-- Model reply carrying an unrecognized timezone together with a new title,
over an existing prior draft. -/
def c6RespW : String :=
  "\x7b\"title\": \"NewTitle\", \"date\": \"2025-05-19\", \"time\": \"09:00\", \"timezone\": \"Mars/Olympus\", \"description\": \"\", \"agenda\": \"\", \"attendees\": []\x7d"

/-- Message the generic handler produces for the unrecognized zone. -/
def c6MsgW : String := genericErrorMsg (pyErrStr (.unknownTimeZoneError "Mars/Olympus"))

/-- C6 counterexample: an unrecognized extracted zone does not fall back to
the prior timezone; pytz.timezone raises, the whole merge aborts (the
extracted title NewTitle never enters the draft, which stays exactly the
prior), and the turn returns the generic error message. -/
theorem c6_unknown_zone_aborts_merge :
    transcribe envUnused ⟨[], some draftW⟩ (some "go") c6RespW =
      .ok (jsonReply (some c6MsgW) [⟨"user", some "go"⟩, ⟨"Assistant", some c6MsgW⟩],
           ⟨[⟨"user", some "go"⟩, ⟨"Assistant", some c6MsgW⟩], some draftW⟩)
    ∧ pytz_all_timezones.contains "Mars/Olympus" = false
    ∧ draftW.title ≠ .jstr "NewTitle" :=
  ⟨rfl, rfl, by simp [draftW]⟩

/-- C6 (amended): the invariant holds in a degenerate way. Any draft a
transcribe turn leaves behind is either the untouched prior draft or a
merged draft whose timezone is the extracted, recognized zone, so a merged
draft always carries a valid zone identifier; but an unrecognized extracted
zone is never replaced by the prior timezone or the default: pytz.timezone
raises, the merge aborts with the generic error message and the draft is
left unchanged, so the else-prior-else-default fallback of the spec never
executes. -/
theorem c6_timezone_validity :
    (∀ env st u response r st3 d, transcribe env st u response = .ok (r, st3) →
       st3.meeting_details = some d → st.meeting_details ≠ some d →
       validTZb d.timezone = true)
    ∧ (∀ env st u response js o tzV e dateV timeV dt0, u ≠ "" →
       jsonSearch (cleanResponse response) = some js →
       ((cleanResponse response) == "SCHEDULE") = false →
       pyStartsWith (cleanResponse response) "CLARIFY" = false →
       jsonLoads js = .ok o →
       pyGetItem o "date" = .ok dateV →
       pyGetItem o "time" = .ok timeV →
       pyStrptime (pyStr dateV ++ " " ++ pyStr timeV) = .ok dt0 →
       pyGetItem o "timezone" = .ok tzV →
       pytzTimezone tzV = .error e →
       transcribe env st (some u) response =
         .ok (jsonReply (some (genericErrorMsg (pyErrStr e)))
                (st.chat_history ++ [⟨"user", some u⟩]
                   ++ [⟨"Assistant", some (genericErrorMsg (pyErrStr e))⟩]),
              ⟨st.chat_history ++ [⟨"user", some u⟩]
                 ++ [⟨"Assistant", some (genericErrorMsg (pyErrStr e))⟩],
               st.meeting_details⟩)) := by
  constructor
  · intro env st u response r st3 d h hd hne
    rcases transcribe_details env st u response r st3 h d hd with h1 | h2
    · exact absurd h1 hne
    · exact h2
  · intro env st u response js o tzV e dateV timeV dt0 hu hs hns hnc hload hdV htV hsp htzV hpz
    have hu2 : (u == "") = false := by simp [hu]
    have hne : e ≠ .jsonDecodeError := by
      cases tzV <;> unfold pytzTimezone at hpz <;> dsimp only at hpz
      case jstr s =>
        by_cases hc : pytz_all_timezones.contains s = true
        · rw [if_pos hc] at hpz
          cases hpz
        · rw [if_neg hc] at hpz
          cases hpz
          simp
      all_goals (cases hpz; simp)
    have htry := transcribeTry_early_err env
      ⟨st.chat_history ++ [⟨"user", some u⟩], st.meeting_details⟩
      (cleanResponse response) js (pyStrip (pyReplace (cleanResponse response) js "")) e hns hnc
      (Or.inr ⟨o, hload, Or.inr ⟨dateV, hdV, Or.inr ⟨timeV, htV,
        Or.inr ⟨dt0, hsp, Or.inr ⟨tzV, htzV, hpz⟩⟩⟩⟩⟩)
    exact transcribe_catch_generic env st u response js e _ hu2 hs htry hne

/-- Model reply with all fields present and a recognized timezone. -/
def c6GoodResp : String :=
  "\x7b\"title\": \"Standup\", \"date\": \"2025-05-19\", \"time\": \"09:00\", \"timezone\": \"Asia/Kolkata\", \"description\": \"\", \"agenda\": \"\", \"attendees\": []\x7d"

/-- Summary message of the merged draft of c6GoodResp. -/
def c6SumW : String := summaryMessage draftW "no attendees"

/-- The parsed object of c6RespW. -/
def c6ObjW : JValue :=
  .jobj [("title", .jstr "NewTitle"), ("date", .jstr "2025-05-19"), ("time", .jstr "09:00"),
         ("timezone", .jstr "Mars/Olympus"), ("description", .jstr ""), ("agenda", .jstr ""),
         ("attendees", .jarr [])]

/-- C6 witness: a successful merge leaves a draft whose timezone is
recognized, and the unrecognized-zone run returns the generic error with the
draft untouched. -/
theorem c6_timezone_validity_witness :
    validTZb draftW.timezone = true
    ∧ transcribe envUnused ⟨[], some draftW⟩ (some "go") c6RespW =
        .ok (jsonReply (some c6MsgW) [⟨"user", some "go"⟩, ⟨"Assistant", some c6MsgW⟩],
             ⟨[⟨"user", some "go"⟩, ⟨"Assistant", some c6MsgW⟩], some draftW⟩) :=
  ⟨c6_timezone_validity.1 envUnused ⟨[], none⟩ (some "go") c6GoodResp
     (jsonReply (some c6SumW) [⟨"user", some "go"⟩, ⟨"Assistant", some c6SumW⟩])
     ⟨[⟨"user", some "go"⟩, ⟨"Assistant", some c6SumW⟩], some draftW⟩ draftW rfl rfl (by simp),
   c6_timezone_validity.2 envUnused ⟨[], some draftW⟩ "go" c6RespW c6RespW c6ObjW
     (.jstr "Mars/Olympus") (.unknownTimeZoneError "Mars/Olympus") (.jstr "2025-05-19")
     (.jstr "09:00") ⟨2025, 5, 19, 9, 0, ""⟩ (by decide) rfl rfl rfl rfl rfl rfl rfl rfl rfl⟩
